import Mathlib

/-!
# ALS correction service (`sensors/als_correction_service.cpp`)

A shallow embedding of the daemon's three parts:

* the region computation and the configuration check of `main`,
* the capture step and the averaging loops of `TakeScreenshotCommand::takeScreenshot`,
* the response written by `TakeScreenshotCommand::runCommand`.

Machine integers are mathematical integers with the reduction written out:
`wrap32` for `int32_t` results, `u32` for `uint32_t` results.
-/

namespace AlsCorrection

/-! ## Machine arithmetic -/

/-- Two's-complement reduction of an exact result to `int32_t`. -/
def wrap32 (x : Int) : Int := (x + 2147483648) % 4294967296 - 2147483648

/-- Whether an exact result is representable in `int32_t`. -/
def inRange32 (x : Int) : Prop := -2147483648 ≤ x ∧ x ≤ 2147483647

instance (x : Int) : Decidable (inRange32 x) := by
  unfold inRange32; infer_instance

/-- Reduction of an exact result to `uint32_t`. -/
def u32 (n : Nat) : Nat := n % 4294967296

/-- Conversion of an `int32_t` value to `uint32_t`. -/
def toU32 (x : Int) : Nat := (x % 4294967296).toNat

/-! ## Rectangles (`android::Rect`, four `int32_t` fields) -/

/-- The `android::Rect` fields, in constructor order `Rect(left, top, right, bottom)`. -/
structure Rect where
  left : Int
  top : Int
  right : Int
  bottom : Int
deriving DecidableEq, Repr

/-- `Rect::getWidth()`: `right - left` as `int32_t`. -/
def Rect.getWidth (r : Rect) : Int := wrap32 (r.right - r.left)

/-- `Rect::getHeight()`: `bottom - top` as `int32_t`. -/
def Rect.getHeight (r : Rect) : Int := wrap32 (r.bottom - r.top)

/-- The four file-scope rectangles of lines 46-49. -/
structure Rects where
  screenshot_rect_0 : Rect
  screenshot_rect_land_90 : Rect
  screenshot_rect_180 : Rect
  screenshot_rect_land_270 : Rect
deriving DecidableEq, Repr

/-- Line 146: `int32_t ALS_RADIUS = 40`. -/
def ALS_RADIUS : Int := 40

/-- Lines 156-159 of `main`: the four assignments, every `int32_t` operation
reduced by `wrap32` in the order C++ evaluates it (`1080 - left - ALS_RADIUS`
is `(1080 - left) - ALS_RADIUS`). -/
def computeRects (left top : Int) : Rects where
  screenshot_rect_0 :=
    ⟨wrap32 (left - ALS_RADIUS), wrap32 (top - ALS_RADIUS),
     wrap32 (left + ALS_RADIUS), wrap32 (top + ALS_RADIUS)⟩
  screenshot_rect_land_90 :=
    ⟨wrap32 (top - ALS_RADIUS), wrap32 (wrap32 (1080 - left) - ALS_RADIUS),
     wrap32 (top + ALS_RADIUS), wrap32 (wrap32 (1080 - left) + ALS_RADIUS)⟩
  screenshot_rect_180 :=
    ⟨wrap32 (wrap32 (1080 - left) - ALS_RADIUS), wrap32 (wrap32 (2400 - top) - ALS_RADIUS),
     wrap32 (wrap32 (1080 - left) + ALS_RADIUS), wrap32 (wrap32 (2400 - top) + ALS_RADIUS)⟩
  screenshot_rect_land_270 :=
    ⟨wrap32 (2400 - wrap32 (top + ALS_RADIUS)), wrap32 (left - ALS_RADIUS),
     wrap32 (2400 - wrap32 (top - ALS_RADIUS)), wrap32 (left + ALS_RADIUS)⟩

/-- Every exact intermediate result of lines 156-159 is representable in
`int32_t`, so that no operation of the four assignments overflows. -/
def noOverflow (left top : Int) : Prop :=
  inRange32 (left - 40) ∧ inRange32 (left + 40) ∧
  inRange32 (top - 40) ∧ inRange32 (top + 40) ∧
  inRange32 (1080 - left) ∧ inRange32 (1080 - left - 40) ∧ inRange32 (1080 - left + 40) ∧
  inRange32 (2400 - top) ∧ inRange32 (2400 - top - 40) ∧ inRange32 (2400 - top + 40) ∧
  inRange32 (2400 - (top + 40)) ∧ inRange32 (2400 - (top - 40))

instance (left top : Int) : Decidable (noOverflow left top) := by
  unfold noOverflow; infer_instance

/-- Both corners of the rectangle lie in `[0, w] x [0, h]`. -/
def Rect.within (r : Rect) (w h : Int) : Prop :=
  0 ≤ r.left ∧ r.left ≤ w ∧ 0 ≤ r.right ∧ r.right ≤ w ∧
  0 ≤ r.top ∧ r.top ≤ h ∧ 0 ≤ r.bottom ∧ r.bottom ≤ h

instance (r : Rect) (w h : Int) : Decidable (r.within w h) := by
  unfold Rect.within; infer_instance

/-- The four rectangles lie in the display frame of their rotation: 1080 x 2400
for 0 and 180 degrees, 2400 x 1080 for 90 and 270 degrees. -/
def Rects.withinDisplay (rs : Rects) : Prop :=
  rs.screenshot_rect_0.within 1080 2400 ∧ rs.screenshot_rect_land_90.within 2400 1080 ∧
  rs.screenshot_rect_180.within 1080 2400 ∧ rs.screenshot_rect_land_270.within 2400 1080

instance (rs : Rects) : Decidable rs.withinDisplay := by
  unfold Rects.withinDisplay; infer_instance

/-! ## Reading the configuration (`is >> left >> top`, line 149)

`std::istringstream` and `operator>>(int&)` belong to the C++ library. The
model follows the formatted-input rules of the standard for the classic locale
and decimal base: a sentry skips white space first, and when the stream is
not good, or runs out while skipping, the extraction fails before anything is
stored in the target variable. -/

/-- The stream: unread characters, and whether `failbit` or `eofbit` is set. -/
structure IStream where
  buf : List Char
  notGood : Bool
deriving DecidableEq, Repr

/-- White space of the classic locale: space and the codes 9 to 13. -/
def isSpace (c : Char) : Bool := c.toNat == 32 || (9 ≤ c.toNat && c.toNat ≤ 13)

/-- Decimal digit. -/
def isDigit (c : Char) : Bool := 48 ≤ c.toNat && c.toNat ≤ 57

/-- The sentry's white-space skip. -/
def skipWs : List Char → List Char
  | [] => []
  | c :: cs => if isSpace c then skipWs cs else c :: cs

/-- Value of a run of decimal digits. -/
def digitsValue (ds : List Char) : Nat :=
  ds.foldl (fun n c => 10 * n + (c.toNat - 48)) 0

/-- The `int` extractor's range rule: an out-of-range value is stored as the
nearest limit (and `failbit` is set). -/
def clamp32 (v : Int) : Int :=
  if v < -2147483648 then -2147483648 else if 2147483647 < v then 2147483647 else v

/-- One `is >> x` for `int32_t x` holding `cur`: the value of `x` afterwards and
the stream afterwards.
* stream not good: `failbit`, `x` keeps `cur`;
* only white space left: `failbit | eofbit`, `x` keeps `cur`;
* no digit after the optional sign: `x = 0`, `failbit`;
* otherwise the digits are consumed and the clamped value stored; the stream
  stays good only if a character follows the digits and the value was in range. -/
def extractInt32 (is : IStream) (cur : Int) : Int × IStream :=
  if is.notGood then (cur, is)
  else
    match skipWs is.buf with
    | [] => (cur, ⟨[], true⟩)
    | c :: cs =>
      let body := if c.toNat == 45 || c.toNat == 43 then cs else c :: cs
      let ds := body.takeWhile isDigit
      let rest := body.dropWhile isDigit
      if ds.isEmpty then (0, ⟨rest, true⟩)
      else
        let v : Int := if c.toNat == 45 then -(digitsValue ds : Int) else (digitsValue ds : Int)
        (clamp32 v, ⟨rest, rest.isEmpty || decide (v ≠ clamp32 v)⟩)

/-- `android::base::GetProperty(key, default_value)`: the property's value, or
the default when the property is unset or empty. -/
def GetProperty (value : Option String) (default_value : String) : String :=
  match value with
  | none => default_value
  | some v => if v.data.isEmpty then default_value else v

/-- What `main` has done when it returns or blocks. -/
structure MainOutcome where
  /-- The exit code when `main` returns; `none` when it stays in the `pause()` loop. -/
  exitCode : Option Int
  /-- The four rectangles once lines 156-159 have assigned them. -/
  rects : Option Rects
  /-- Whether `AlsCorrectionListener` was constructed and `startListener()` called. -/
  listenerStarted : Bool
deriving DecidableEq, Repr

/-- The values of `left` and `top` after line 149. `left0` and `top0` are the
values the uninitialised locals of line 145 hold before the extraction. -/
def readAnchor (left0 top0 : Int) (grabrect : Option String) : Int × Int :=
  let is : IStream := ⟨(GetProperty grabrect "").data, false⟩
  let r1 := extractInt32 is left0
  let r2 := extractInt32 r1.2 top0
  (r1.1, r2.1)

/-- Lines 144-173 of `main`. -/
def main (left0 top0 : Int) (grabrect : Option String) : MainOutcome :=
  let a := readAnchor left0 top0 grabrect
  if a.1 = 0 then
    { exitCode := some 0, rects := none, listenerStarted := false }
  else
    { exitCode := none, rects := some (computeRects a.1 a.2), listenerStarted := true }

/-! ## The capture step (`takeScreenshot`, lines 76-113) -/

/-- `android::ui::Rotation` as read from `DisplayState::orientation`; a value
outside the four enumerators is kept with its raw number. -/
inductive Rotation where
  | Rotation0
  | Rotation90
  | Rotation180
  | Rotation270
  | unrecognized (raw : Int)
deriving DecidableEq, Repr

/-- Pixel formats named in the file. -/
inductive PixelFormat where
  | RGBA_8888
  | RGB_888
deriving DecidableEq, Repr

/-- A locked `GraphicBuffer`: `getWidth()`, `getHeight()`, `getStride()` (all
`uint32_t`, the stride in pixels) and the bytes behind the pointer that
`lock` hands out, by byte offset. -/
structure GraphicBuffer where
  width : Nat
  height : Nat
  stride : Nat
  bytes : Nat → Nat

/-- `out[i]` for `uint8_t *out`. -/
def GraphicBuffer.byteAt (buf : GraphicBuffer) (i : Nat) : Nat := buf.bytes i % 256

/-- The fields of `DisplayCaptureArgs` that `takeScreenshot` sets. -/
structure DisplayCaptureArgs where
  pixelFormat : PixelFormat
  sourceCrop : Rect
  width : Nat
  height : Nat
  useIdentityTransform : Bool
  captureSecureLayers : Bool
deriving DecidableEq, Repr

/-- What the compositor answers to one `captureDisplay` call. -/
structure CaptureReply where
  /-- The `status_t` returned by `ScreenshotClient::captureDisplay`; `NO_ERROR` is 0. -/
  status : Int
  /-- The value of `captureResults.fenceResult.ok()`. -/
  fenceOk : Bool
  /-- The buffer in `captureResults.buffer`. -/
  buffer : GraphicBuffer

/-- Everything outside the daemon that one `take_screenshot` request reads. -/
structure CaptureEnv where
  /-- The `state.orientation` that `getDisplayState` reports. -/
  orientation : Rotation
  /-- The compositor's answer to the capture arguments. -/
  captureDisplay : DisplayCaptureArgs → CaptureReply
  /-- Stride the allocator gives the buffer built by `new GraphicBuffer`. -/
  freshStride : Nat
  /-- Contents of that newly built buffer. -/
  freshBytes : Nat → Nat
  /-- The value of `systemTime(SYSTEM_TIME_BOOTTIME)`. -/
  bootTime : Int

/-- The `switch` of lines 84-93. -/
def selectRect (rs : Rects) : Rotation → Rect
  | Rotation.Rotation90 => rs.screenshot_rect_land_90
  | Rotation.Rotation180 => rs.screenshot_rect_180
  | Rotation.Rotation270 => rs.screenshot_rect_land_270
  | _ => rs.screenshot_rect_0

/-- The capture arguments of lines 79 and 100-104. -/
def captureArgsFor (rs : Rects) (orientation : Rotation) : DisplayCaptureArgs where
  pixelFormat := PixelFormat.RGBA_8888
  sourceCrop := selectRect rs orientation
  width := toU32 (selectRect rs orientation).getWidth
  height := toU32 (selectRect rs orientation).getHeight
  useIdentityTransform := true
  captureSecureLayers := true

/-- The test of lines 107 and 110: `captureDisplay` returned `NO_ERROR` and the
fence result is ok. -/
def captureSucceeded (rs : Rects) (env : CaptureEnv) : Bool :=
  let reply := env.captureDisplay (captureArgsFor rs env.orientation)
  decide (reply.status = 0) && reply.fenceOk

/-! ## The averaging step (lines 115-133) -/

/-- The index expression `y * (stride * 4) + x * 4 + c`, evaluated in
`uint32_t` as C++ does once `stride` is `uint32_t`. -/
def pixelIndex (stride y x c : Nat) : Nat :=
  u32 (u32 (u32 (y * u32 (stride * 4)) + u32 (x * 4)) + c)

/-- The three `uint32_t` accumulators of line 122. -/
structure Sums where
  rsum : Nat
  gsum : Nat
  bsum : Nat
deriving DecidableEq, Repr

/-- The loop body, lines 125-127. -/
def addPixel (buf : GraphicBuffer) (y : Nat) (acc : Sums) (x : Nat) : Sums where
  rsum := u32 (acc.rsum + buf.byteAt (pixelIndex buf.stride y x 0))
  gsum := u32 (acc.gsum + buf.byteAt (pixelIndex buf.stride y x 1))
  bsum := u32 (acc.bsum + buf.byteAt (pixelIndex buf.stride y x 2))

/-- The inner loop, line 124: `x` from 0 up to `resultWidth`. -/
def sumRow (buf : GraphicBuffer) (acc : Sums) (y : Nat) : Sums :=
  (List.range buf.width).foldl (addPixel buf y) acc

/-- The outer loop, line 123: `y` from 0 up to `resultHeight`, from zeroed sums. -/
def sumPixels (buf : GraphicBuffer) : Sums :=
  (List.range buf.height).foldl (sumRow buf) ⟨0, 0, 0⟩

/-- Lines 130 and 133: `max = resultWidth * resultHeight` in `uint32_t` and the
three quotients. The source divides without a test; when `max` is 0 the
division is undefined in C++, and `none` marks that absence of a defined
result (it is not a path of the code: where the division does not trap, the
code goes on and sends a response). -/
def averageBuffer (buf : GraphicBuffer) : Option (Nat × Nat × Nat) :=
  let s := sumPixels buf
  let max := u32 (buf.width * buf.height)
  if max = 0 then none else some (s.rsum / max, s.gsum / max, s.bsum / max)

/-- The struct of lines 63-66; `nsecs_t` is `int64_t`. -/
structure screenshot_t where
  r : Nat
  g : Nat
  b : Nat
  timestamp : Int
deriving DecidableEq, Repr

/-- The colour fields of a result. -/
def screenshot_t.channels (s : screenshot_t) : Nat × Nat × Nat := (s.r, s.g, s.b)

/-- The buffer that lines 95-113 leave in the function-local static
`outBuffer`: on the first call the static is built from the selected
rectangle; a successful capture replaces it; otherwise it is kept. The pixel
format of the first-call buffer (`PIXEL_FORMAT_RGB_888`, 3 bytes per pixel) is
not modelled: its contents are the byte map `freshBytes`, so the reads that
the 4-byte-pitch loops make past the end of that buffer have no counterpart
here. -/
def bufferAfterCapture (rs : Rects) (outBuffer : Option GraphicBuffer) (env : CaptureEnv) :
    GraphicBuffer :=
  let rect := selectRect rs env.orientation
  let held : GraphicBuffer :=
    match outBuffer with
    | some b => b
    | none => ⟨toU32 rect.getWidth, toU32 rect.getHeight, env.freshStride, env.freshBytes⟩
  if captureSucceeded rs env then
    (env.captureDisplay (captureArgsFor rs env.orientation)).buffer
  else held

/-- `TakeScreenshotCommand::takeScreenshot`, lines 76-134. The first argument
pair is the program state (the rectangles and the static `outBuffer`, `none`
before the first call); the result is the new `outBuffer` and the returned
struct. -/
def takeScreenshot (rs : Rects) (outBuffer : Option GraphicBuffer) (env : CaptureEnv) :
    Option GraphicBuffer × Option screenshot_t :=
  let buf := bufferAfterCapture rs outBuffer env
  (some buf, (averageBuffer buf).map fun c => ⟨c.1, c.2.1, c.2.2, env.bootTime⟩)

/-! ## The response (`runCommand`, lines 56-66) -/

/-- Round `n` up to a multiple of `a`. -/
def alignUp (n a : Nat) : Nat := (n + a - 1) / a * a

/-- Offsets of struct members laid out in declaration order from position
`pos`; a member is a (size, alignment) pair. -/
def memberOffsets : List (Nat × Nat) → Nat → List Nat
  | [], _ => []
  | m :: ms, pos => alignUp pos m.2 :: memberOffsets ms (alignUp pos m.2 + m.1)

/-- Position just after the last member. -/
def membersEnd : List (Nat × Nat) → Nat → Nat
  | [], pos => pos
  | m :: ms, pos => membersEnd ms (alignUp pos m.2 + m.1)

/-- The usual C struct size: the end of the last member rounded up to the
largest member alignment. -/
def sizeofStruct (ms : List (Nat × Nat)) : Nat :=
  alignUp (membersEnd ms 0) (ms.foldl (fun a m => Nat.max a m.2) 1)

/-- Members of `screenshot_t`: `r`, `g`, `b` (`uint32_t`) and `timestamp`
(`int64_t`), whose alignment `alignInt64` is fixed by the platform ABI (8 on
arm64, arm and x86-64; 4 on 32-bit x86). -/
def screenshot_t_members (alignInt64 : Nat) : List (Nat × Nat) :=
  [(4, 4), (4, 4), (4, 4), (8, alignInt64)]

/-- What `cli->sendData(&screenshot, sizeof(screenshot_t))` is given. -/
structure Response where
  data : screenshot_t
  size : Nat
  memberOffsets : List Nat
deriving DecidableEq, Repr

/-- `TakeScreenshotCommand::runCommand`: the new `outBuffer` and the data sent
to the client. -/
def runCommand (alignInt64 : Nat) (rs : Rects) (outBuffer : Option GraphicBuffer)
    (env : CaptureEnv) : Option GraphicBuffer × Option Response :=
  let r := takeScreenshot rs outBuffer env
  (r.1, r.2.map fun s =>
    ⟨s, sizeofStruct (screenshot_t_members alignInt64),
      memberOffsets (screenshot_t_members alignInt64) 0⟩)

/-- The static `outBuffer` after a run of requests. -/
def serve (rs : Rects) (outBuffer : Option GraphicBuffer) : List CaptureEnv → Option GraphicBuffer
  | [] => outBuffer
  | env :: envs => serve rs (takeScreenshot rs outBuffer env).1 envs

/-! ## Reference quantities for the averaging step -/

/-- A colour channel and its byte offset inside an RGBA pixel. -/
inductive Channel where
  | red
  | green
  | blue
deriving DecidableEq, Repr

/-- Byte offset of the channel inside a pixel. -/
def Channel.offset : Channel → Nat
  | Channel.red => 0
  | Channel.green => 1
  | Channel.blue => 2

/-- The accumulator of a channel. -/
def Sums.get (s : Sums) : Channel → Nat
  | Channel.red => s.rsum
  | Channel.green => s.gsum
  | Channel.blue => s.bsum

/-- The component of a colour triple for a channel. -/
def channelOf (t : Nat × Nat × Nat) : Channel → Nat
  | Channel.red => t.1
  | Channel.green => t.2.1
  | Channel.blue => t.2.2

/-- The exact (unbounded) sum of a channel's bytes over the pixels `(x, y)`
with `x < width`, `y < height`, pixel `(x, y)` lying at byte offset
`(y * stride + x) * 4`. -/
def exactChannelSum (buf : GraphicBuffer) (ch : Channel) : Nat :=
  ((List.range buf.height).map fun y =>
    ((List.range buf.width).map fun x =>
      buf.byteAt ((y * buf.stride + x) * 4 + ch.offset)).sum).sum

/-- Every pixel of the `width x height` area has the bytes `(R, G, B)`. -/
def uniformPixels (buf : GraphicBuffer) (R G B : Nat) : Prop :=
  ∀ y, y < buf.height → ∀ x, x < buf.width →
    buf.byteAt ((y * buf.stride + x) * 4) = R ∧
    buf.byteAt ((y * buf.stride + x) * 4 + 1) = G ∧
    buf.byteAt ((y * buf.stride + x) * 4 + 2) = B

/-! ## Concrete inputs used in the examples -/

/-- A 2 x 2 capture, stride 2, every pixel (10, 20, 30) with alpha 255. -/
def sampleBuffer : GraphicBuffer :=
  ⟨2, 2, 2, fun i => if i % 4 = 0 then 10 else if i % 4 = 1 then 20 else if i % 4 = 2 then 30
    else 255⟩

/-- A 1 x 1 capture holding the pixel (90, 80, 70). -/
def otherBuffer : GraphicBuffer :=
  ⟨1, 1, 1, fun i => if i = 0 then 90 else if i = 1 then 80 else if i = 2 then 70 else 255⟩

/-- A request at boot time `t` whose capture succeeds with `sampleBuffer`. -/
def okEnv (t : Int) : CaptureEnv :=
  ⟨Rotation.Rotation0, fun _ => ⟨0, true, sampleBuffer⟩, 80, fun _ => 0, t⟩

/-- A request at boot time `t` whose capture call returns `NO_ERROR` but whose
fence result is not ok. -/
def failedEnv (t : Int) : CaptureEnv :=
  ⟨Rotation.Rotation0, fun _ => ⟨0, false, otherBuffer⟩, 80, fun _ => 0, t⟩

/-- A one-row all-white buffer of 16843010 pixels: `255 * 16843010 = 2^32 + 254`. -/
def whiteStrip : GraphicBuffer := ⟨16843010, 1, 16843010, fun _ => 255⟩

/-- A 1 x 2 buffer with a stride of `2^30` pixels: the second row starts at
byte offset `2^32`, where the red byte is 255; every other byte is 0. -/
def farRowBuffer : GraphicBuffer :=
  ⟨1, 2, 1073741824, fun i => if i = 4294967296 then 255 else 0⟩

/-! ## Region computation: theorems -/

/-- An in-range exact result is its own `int32_t` reduction. -/
theorem wrap32_of_inRange32 (x : Int) (h : inRange32 x) : wrap32 x = x := by
  unfold inRange32 at h
  unfold wrap32
  omega

/-- The anchors without overflow, as intervals. -/
theorem noOverflow_iff (left top : Int) :
    noOverflow left top ↔
      (-2147482527 ≤ left ∧ left ≤ 2147483607 ∧ -2147481207 ≤ top ∧ top ≤ 2147483607) := by
  unfold noOverflow inRange32
  omega

/-- Whenever the value read for `left` is not 0, `main` assigns the rectangles
of `computeRects` at the anchor read and starts the listener. -/
theorem main_of_left_ne_zero (left0 top0 : Int) (grabrect : Option String)
    (h : (readAnchor left0 top0 grabrect).1 ≠ 0) :
    main left0 top0 grabrect =
      { exitCode := none,
        rects := some (computeRects (readAnchor left0 top0 grabrect).1
          (readAnchor left0 top0 grabrect).2),
        listenerStarted := true } := by
  unfold main
  simp [h]

/-- Whenever the value read for `left` is 0, `main` returns 0 with the
rectangles unassigned and no listener. -/
theorem main_of_left_eq_zero (left0 top0 : Int) (grabrect : Option String)
    (h : (readAnchor left0 top0 grabrect).1 = 0) :
    main left0 top0 grabrect = { exitCode := some 0, rects := none, listenerStarted := false } := by
  unfold main
  simp [h]

/-- C3 as stated fails: the configuration "10 10" has a non-zero left value,
the listener is started, and the rotation-0 rectangle is (-30, -30, 50, 50),
which leaves the display on both axes. -/
theorem C3_counterexample :
    (main 0 0 (some "10 10")).listenerStarted = true ∧
    (main 0 0 (some "10 10")).rects = some (computeRects 10 10) ∧
    (computeRects 10 10).screenshot_rect_0 = ⟨-30, -30, 50, 50⟩ ∧
    ¬ (computeRects 10 10).withinDisplay := by
  decide

/-- C3 (amended): for an `int32_t` anchor, all four rectangles lie within the
display frame of their rotation exactly when `40 ≤ left ≤ 1040` and
`40 ≤ top ≤ 2360`. -/
theorem C3_rects_within_display_iff (left top : Int)
    (hl : inRange32 left) (ht : inRange32 top) :
    (computeRects left top).withinDisplay ↔
      (40 ≤ left ∧ left ≤ 1040 ∧ 40 ≤ top ∧ top ≤ 2360) := by
  unfold inRange32 at hl ht
  unfold Rects.withinDisplay Rect.within computeRects wrap32 ALS_RADIUS
  dsimp only
  omega

/-- C3 at the anchor (500, 800): the anchor is in range and the four rectangles
lie within the display. -/
theorem C3_rects_within_display_witness :
    inRange32 500 ∧ inRange32 800 ∧ (computeRects 500 800).withinDisplay :=
  ⟨by decide, by decide,
    (C3_rects_within_display_iff 500 800 (by decide) (by decide)).mpr (by decide)⟩

/-- C5 as stated fails: the configuration "2147483647 100" is read as the anchor
(2147483647, 100); `left + 40` leaves `int32_t`, and the rotation-0 rectangle
gets `right = -2147483609 < left = 2147483607`. -/
theorem C5_counterexample :
    readAnchor 0 0 (some "2147483647 100") = (2147483647, 100) ∧
    (computeRects 2147483647 100).screenshot_rect_0 = ⟨2147483607, 60, -2147483609, 140⟩ ∧
    ¬ (0 < (computeRects 2147483647 100).screenshot_rect_0.right -
          (computeRects 2147483647 100).screenshot_rect_0.left) := by
  decide

/-- C5 (amended): for every anchor at which no `int32_t` operation of lines
156-159 overflows, each of the four rectangles has `right - left > 0` and
`bottom - top > 0`. -/
theorem C5_rects_positive_size (left top : Int) (h : noOverflow left top) :
    (0 < (computeRects left top).screenshot_rect_0.right -
        (computeRects left top).screenshot_rect_0.left ∧
      0 < (computeRects left top).screenshot_rect_0.bottom -
        (computeRects left top).screenshot_rect_0.top) ∧
    (0 < (computeRects left top).screenshot_rect_land_90.right -
        (computeRects left top).screenshot_rect_land_90.left ∧
      0 < (computeRects left top).screenshot_rect_land_90.bottom -
        (computeRects left top).screenshot_rect_land_90.top) ∧
    (0 < (computeRects left top).screenshot_rect_180.right -
        (computeRects left top).screenshot_rect_180.left ∧
      0 < (computeRects left top).screenshot_rect_180.bottom -
        (computeRects left top).screenshot_rect_180.top) ∧
    (0 < (computeRects left top).screenshot_rect_land_270.right -
        (computeRects left top).screenshot_rect_land_270.left ∧
      0 < (computeRects left top).screenshot_rect_land_270.bottom -
        (computeRects left top).screenshot_rect_land_270.top) := by
  unfold noOverflow inRange32 at h
  unfold computeRects wrap32 ALS_RADIUS
  dsimp only
  omega

/-- C5 at the anchor (500, 800): nothing overflows and the rotation-0
rectangle is 80 wide and 80 high. -/
theorem C5_rects_positive_size_witness :
    noOverflow 500 800 ∧
    0 < (computeRects 500 800).screenshot_rect_0.right -
        (computeRects 500 800).screenshot_rect_0.left ∧
    0 < (computeRects 500 800).screenshot_rect_0.bottom -
        (computeRects 500 800).screenshot_rect_0.top :=
  ⟨by decide, (C5_rects_positive_size 500 800 (by decide)).1⟩

/-- C6 as stated fails: at the anchor (2147483647, 100) the rotation-0
rectangle is not `(left - 40, top - 40, left + 40, top + 40)`, because
`left + 40` is not an `int32_t` value. -/
theorem C6_counterexample :
    readAnchor 0 0 (some "2147483647 100") = (2147483647, 100) ∧
    (computeRects 2147483647 100).screenshot_rect_0 ≠
      ⟨2147483647 - 40, 100 - 40, 2147483647 + 40, 100 + 40⟩ := by
  decide

/-- C6 (amended): for every anchor whose four offsets `left - 40`, `left + 40`,
`top - 40`, `top + 40` are `int32_t` values, the rotation-0 rectangle is
`(left - 40, top - 40, left + 40, top + 40)`. -/
theorem C6_rect_0_formula (left top : Int)
    (h1 : inRange32 (left - 40)) (h2 : inRange32 (left + 40))
    (h3 : inRange32 (top - 40)) (h4 : inRange32 (top + 40)) :
    (computeRects left top).screenshot_rect_0 = ⟨left - 40, top - 40, left + 40, top + 40⟩ := by
  simp only [computeRects, ALS_RADIUS, wrap32_of_inRange32 _ h1, wrap32_of_inRange32 _ h2,
    wrap32_of_inRange32 _ h3, wrap32_of_inRange32 _ h4]

/-- C6 at the anchor (500, 800): the rotation-0 rectangle is (460, 760, 540, 840). -/
theorem C6_rect_0_formula_witness :
    (computeRects 500 800).screenshot_rect_0 = ⟨460, 760, 540, 840⟩ :=
  C6_rect_0_formula 500 800 (by decide) (by decide) (by decide) (by decide)

/-- C10: for every anchor at which no `int32_t` operation of lines 156-159
overflows, the 180 degree rectangle is the point reflection of the rotation-0
rectangle in the 1080 x 2400 frame, and the 270 degree rectangle is the point
reflection of the 90 degree rectangle in the 2400 x 1080 frame. -/
theorem C10_point_reflection (left top : Int) (h : noOverflow left top) :
    (computeRects left top).screenshot_rect_180 =
      ⟨1080 - (computeRects left top).screenshot_rect_0.right,
        2400 - (computeRects left top).screenshot_rect_0.bottom,
        1080 - (computeRects left top).screenshot_rect_0.left,
        2400 - (computeRects left top).screenshot_rect_0.top⟩ ∧
    (computeRects left top).screenshot_rect_land_270 =
      ⟨2400 - (computeRects left top).screenshot_rect_land_90.right,
        1080 - (computeRects left top).screenshot_rect_land_90.bottom,
        2400 - (computeRects left top).screenshot_rect_land_90.left,
        1080 - (computeRects left top).screenshot_rect_land_90.top⟩ := by
  unfold noOverflow inRange32 at h
  unfold computeRects wrap32 ALS_RADIUS
  simp only [Rect.mk.injEq]
  omega

/-- C10 at the anchor (500, 800): nothing overflows, and the 180 degree
rectangle (540, 1560, 620, 1640) reflects the rotation-0 rectangle
(460, 760, 540, 840). -/
theorem C10_point_reflection_witness :
    noOverflow 500 800 ∧
    (computeRects 500 800).screenshot_rect_180 =
      ⟨1080 - (computeRects 500 800).screenshot_rect_0.right,
        2400 - (computeRects 500 800).screenshot_rect_0.bottom,
        1080 - (computeRects 500 800).screenshot_rect_0.left,
        2400 - (computeRects 500 800).screenshot_rect_0.top⟩ :=
  ⟨by decide, (C10_point_reflection 500 800 (by decide)).1⟩

/-- With the property unset, both locals keep the values they held before the
extraction. -/
theorem readAnchor_unset (left0 top0 : Int) : readAnchor left0 top0 none = (left0, top0) := rfl

/-- With the property unset, the listener is started exactly when the
uninitialised `left` is non-zero. -/
theorem main_unset_listenerStarted_iff (left0 top0 : Int) :
    (main left0 top0 none).listenerStarted = true ↔ left0 ≠ 0 := by
  unfold main
  rw [readAnchor_unset]
  by_cases h : left0 = 0 <;> simp [h]

/-- C8 at the failing input: with the property unset (or set to the empty
string) the extraction stores nothing, so `left` keeps whatever the
uninitialised local held. Holding 7, `main` does not return: it assigns the
rectangles from the garbage anchor and starts the listener. Holding 0, it
returns 0. -/
theorem C8_unset_property_reads_uninitialised_left :
    readAnchor 7 9 none = (7, 9) ∧
    main 7 9 none =
      { exitCode := none, rects := some (computeRects 7 9), listenerStarted := true } ∧
    main 7 9 (some "") = main 7 9 none ∧
    main 0 9 none = { exitCode := some 0, rects := none, listenerStarted := false } := by
  decide

/-! ## Rectangle selection: theorem -/

/-- C7: the rectangle passed to the capture call as `sourceCrop` is determined
by the orientation alone: `Rotation90`, `Rotation180` and `Rotation270` select
their own rectangle, and every other orientation value (so `Rotation0` and any
unrecognized value) selects the rotation-0 rectangle. -/
theorem C7_rect_selection (rs : Rects) :
    (captureArgsFor rs Rotation.Rotation90).sourceCrop = rs.screenshot_rect_land_90 ∧
    (captureArgsFor rs Rotation.Rotation180).sourceCrop = rs.screenshot_rect_180 ∧
    (captureArgsFor rs Rotation.Rotation270).sourceCrop = rs.screenshot_rect_land_270 ∧
    (captureArgsFor rs Rotation.Rotation0).sourceCrop = rs.screenshot_rect_0 ∧
    ∀ o : Rotation, o ≠ Rotation.Rotation90 → o ≠ Rotation.Rotation180 →
      o ≠ Rotation.Rotation270 → (captureArgsFor rs o).sourceCrop = rs.screenshot_rect_0 := by
  refine ⟨rfl, rfl, rfl, rfl, ?_⟩
  intro o h90 h180 h270
  cases o with
  | Rotation0 => rfl
  | Rotation90 => exact absurd rfl h90
  | Rotation180 => exact absurd rfl h180
  | Rotation270 => exact absurd rfl h270
  | unrecognized raw => rfl

/-! ## Averaging: lemmas -/

theorem u32_lt (n : Nat) : u32 n < 4294967296 :=
  Nat.mod_lt _ (by decide)

theorem u32_of_lt {n : Nat} (h : n < 4294967296) : u32 n = n :=
  Nat.mod_eq_of_lt h

theorem u32_add_left (a b : Nat) : u32 (u32 a + b) = u32 (a + b) := by
  unfold u32
  omega

/-- The `uint32_t` index is the exact byte offset reduced modulo `2^32`. -/
theorem pixelIndex_eq_u32 (s y x c : Nat) :
    pixelIndex s y x c = u32 ((y * s + x) * 4 + c) := by
  have h1 : u32 (y * u32 (s * 4)) = u32 (y * (s * 4)) := by
    unfold u32
    rw [Nat.mul_mod, Nat.mod_mod, ← Nat.mul_mod]
  have h2 : (y * s + x) * 4 + c = y * (s * 4) + x * 4 + c := by ring
  unfold pixelIndex
  rw [h1, h2]
  generalize y * (s * 4) = A
  unfold u32
  omega

/-- When the whole pixel area lies below byte offset `2^32`, the index
expression does not wrap. -/
theorem pixelIndex_exact (s w h y x c : Nat) (hs : w ≤ s)
    (hidx : 4 * (s * h) ≤ 4294967296) (hy : y < h) (hx : x < w) (hc : c ≤ 2) :
    pixelIndex s y x c = (y * s + x) * 4 + c := by
  rw [pixelIndex_eq_u32]
  apply u32_of_lt
  have h1 : (y + 1) * s ≤ h * s := Nat.mul_le_mul_right s hy
  have h2 : (y + 1) * s = y * s + s := by ring
  have h3 : s * h = h * s := Nat.mul_comm s h
  omega

/-- A fold whose step adds `f b` to one accumulator in `uint32_t`. -/
theorem foldl_get_eq {β : Type} (step : Sums → β → Sums) (f : β → Nat) (ch : Channel)
    (hstep : ∀ acc b, acc.get ch < 4294967296 → (step acc b).get ch = u32 (acc.get ch + f b)) :
    ∀ (l : List β) (acc : Sums), acc.get ch < 4294967296 →
      (l.foldl step acc).get ch = u32 (acc.get ch + (l.map f).sum) := by
  intro l
  induction l with
  | nil =>
    intro acc hacc
    simp [u32_of_lt hacc]
  | cons b t ih =>
    intro acc hacc
    have hb := hstep acc b hacc
    have hlt : (step acc b).get ch < 4294967296 := by
      rw [hb]
      exact u32_lt _
    rw [List.foldl_cons, ih (step acc b) hlt, hb, u32_add_left, List.map_cons, List.sum_cons,
      Nat.add_assoc]

theorem addPixel_get (buf : GraphicBuffer) (y : Nat) (acc : Sums) (x : Nat) (ch : Channel) :
    (addPixel buf y acc x).get ch =
      u32 (acc.get ch + buf.byteAt (pixelIndex buf.stride y x ch.offset)) := by
  cases ch <;> rfl

theorem sumRow_get (buf : GraphicBuffer) (acc : Sums) (y : Nat) (ch : Channel)
    (hacc : acc.get ch < 4294967296) :
    (sumRow buf acc y).get ch =
      u32 (acc.get ch +
        ((List.range buf.width).map fun x =>
          buf.byteAt (pixelIndex buf.stride y x ch.offset)).sum) := by
  unfold sumRow
  exact foldl_get_eq (addPixel buf y)
    (fun x => buf.byteAt (pixelIndex buf.stride y x ch.offset)) ch
    (fun acc x _ => addPixel_get buf y acc x ch) _ acc hacc

/-- Each accumulator ends as the `uint32_t` reduction of the sum of the bytes read. -/
theorem sumPixels_get (buf : GraphicBuffer) (ch : Channel) :
    (sumPixels buf).get ch =
      u32 (((List.range buf.height).map fun y =>
        ((List.range buf.width).map fun x =>
          buf.byteAt (pixelIndex buf.stride y x ch.offset)).sum).sum) := by
  unfold sumPixels
  have h0 : (Sums.mk 0 0 0).get ch < 4294967296 := by cases ch <;> decide
  have h := foldl_get_eq (sumRow buf)
    (fun y => ((List.range buf.width).map fun x =>
      buf.byteAt (pixelIndex buf.stride y x ch.offset)).sum) ch
    (fun acc y hacc => sumRow_get buf acc y ch hacc) (List.range buf.height) ⟨0, 0, 0⟩ h0
  rw [h]
  have hz : (Sums.mk 0 0 0).get ch = 0 := by cases ch <;> rfl
  rw [hz, Nat.zero_add]

theorem Channel.offset_le (ch : Channel) : ch.offset ≤ 2 := by
  cases ch <;> decide

/-- With the pixel area below byte offset `2^32`, each accumulator ends as the
`uint32_t` reduction of the exact channel sum. -/
theorem sumPixels_get_exact (buf : GraphicBuffer) (ch : Channel)
    (hs : buf.width ≤ buf.stride) (hidx : 4 * (buf.stride * buf.height) ≤ 4294967296) :
    (sumPixels buf).get ch = u32 (exactChannelSum buf ch) := by
  rw [sumPixels_get]
  unfold exactChannelSum
  congr 2
  apply List.map_congr_left
  intro y hy
  congr 1
  apply List.map_congr_left
  intro x hx
  rw [pixelIndex_exact buf.stride buf.width buf.height y x ch.offset hs hidx
    (List.mem_range.mp hy) (List.mem_range.mp hx) ch.offset_le]

theorem sum_map_le_mul {β : Type} (l : List β) (f : β → Nat) (k : Nat)
    (h : ∀ b ∈ l, f b ≤ k) : (l.map f).sum ≤ k * l.length := by
  induction l with
  | nil => simp
  | cons b t ih =>
    have hb := h b (List.mem_cons_self b t)
    have ht := ih (fun c hc => h c (List.mem_cons_of_mem b hc))
    rw [List.map_cons, List.sum_cons, List.length_cons, Nat.mul_succ]
    omega

theorem sum_map_eq_mul {β : Type} (l : List β) (f : β → Nat) (k : Nat)
    (h : ∀ b ∈ l, f b = k) : (l.map f).sum = k * l.length := by
  induction l with
  | nil => simp
  | cons b t ih =>
    have hb := h b (List.mem_cons_self b t)
    have ht := ih (fun c hc => h c (List.mem_cons_of_mem b hc))
    rw [List.map_cons, List.sum_cons, List.length_cons, Nat.mul_succ]
    omega

/-- Bytes are at most 255, so a channel sum is at most 255 per pixel. -/
theorem exactChannelSum_le (buf : GraphicBuffer) (ch : Channel) :
    exactChannelSum buf ch ≤ 255 * (buf.width * buf.height) := by
  unfold exactChannelSum
  have hrow : ∀ y ∈ List.range buf.height,
      ((List.range buf.width).map fun x =>
        buf.byteAt ((y * buf.stride + x) * 4 + ch.offset)).sum ≤ 255 * buf.width := by
    intro y _
    have h := sum_map_le_mul (List.range buf.width)
      (fun x => buf.byteAt ((y * buf.stride + x) * 4 + ch.offset)) 255
      (fun x _ => Nat.le_of_lt_succ (Nat.mod_lt _ (by decide)))
    rwa [List.length_range] at h
  have h := sum_map_le_mul (List.range buf.height) _ (255 * buf.width) hrow
  rw [List.length_range] at h
  calc _ ≤ 255 * buf.width * buf.height := h
    _ = 255 * (buf.width * buf.height) := Nat.mul_assoc _ _ _

/-- The exact channel sums of a uniform area. -/
theorem exactChannelSum_uniform (buf : GraphicBuffer) (R G B : Nat)
    (hu : uniformPixels buf R G B) (ch : Channel) :
    exactChannelSum buf ch = channelOf (R, G, B) ch * (buf.width * buf.height) := by
  unfold exactChannelSum
  have hrow : ∀ y ∈ List.range buf.height,
      ((List.range buf.width).map fun x =>
        buf.byteAt ((y * buf.stride + x) * 4 + ch.offset)).sum =
        channelOf (R, G, B) ch * buf.width := by
    intro y hy
    have h := sum_map_eq_mul (List.range buf.width)
      (fun x => buf.byteAt ((y * buf.stride + x) * 4 + ch.offset)) (channelOf (R, G, B) ch)
      (fun x hx => by
        have hp := hu y (List.mem_range.mp hy) x (List.mem_range.mp hx)
        cases ch
        · exact hp.1
        · exact hp.2.1
        · exact hp.2.2)
    rwa [List.length_range] at h
  have h := sum_map_eq_mul (List.range buf.height) _ (channelOf (R, G, B) ch * buf.width) hrow
  rw [List.length_range] at h
  rw [h, Nat.mul_assoc]

/-- The averaging step in terms of the exact channel sums, for a pixel area
below byte offset `2^32`. -/
theorem averageBuffer_eq (buf : GraphicBuffer)
    (hs : buf.width ≤ buf.stride) (hidx : 4 * (buf.stride * buf.height) ≤ 4294967296) :
    averageBuffer buf =
      if u32 (buf.width * buf.height) = 0 then none
      else some (u32 (exactChannelSum buf Channel.red) / u32 (buf.width * buf.height),
        u32 (exactChannelSum buf Channel.green) / u32 (buf.width * buf.height),
        u32 (exactChannelSum buf Channel.blue) / u32 (buf.width * buf.height)) := by
  have hr := sumPixels_get_exact buf Channel.red hs hidx
  have hg := sumPixels_get_exact buf Channel.green hs hidx
  have hb := sumPixels_get_exact buf Channel.blue hs hidx
  simp only [Sums.get] at hr hg hb
  unfold averageBuffer
  simp only [hr, hg, hb]

/-! ## Averaging: theorems -/

/-- The averaging step on a uniform area below byte offset `2^32`, with the
`uint32_t` reductions still in place. -/
theorem averageBuffer_uniform (buf : GraphicBuffer) (R G B : Nat)
    (hu : uniformPixels buf R G B) (hs : buf.width ≤ buf.stride)
    (hidx : 4 * (buf.stride * buf.height) ≤ 4294967296) :
    averageBuffer buf =
      if u32 (buf.width * buf.height) = 0 then none
      else some (u32 (R * (buf.width * buf.height)) / u32 (buf.width * buf.height),
        u32 (G * (buf.width * buf.height)) / u32 (buf.width * buf.height),
        u32 (B * (buf.width * buf.height)) / u32 (buf.width * buf.height)) := by
  rw [averageBuffer_eq buf hs hidx, exactChannelSum_uniform buf R G B hu Channel.red,
    exactChannelSum_uniform buf R G B hu Channel.green,
    exactChannelSum_uniform buf R G B hu Channel.blue]
  rfl

theorem whiteStrip_uniform : uniformPixels whiteStrip 255 255 255 := by
  intro y _ x _
  exact ⟨rfl, rfl, rfl⟩

/-- C1 as stated fails: a uniform white buffer of 16843010 x 1 pixels (stride
equal to the width) sums to `2^32 + 254` per channel, the `uint32_t`
accumulators keep 254, and the averaging step returns (0, 0, 0), not
(255, 255, 255). -/
theorem C1_counterexample :
    uniformPixels whiteStrip 255 255 255 ∧ whiteStrip.width ≤ whiteStrip.stride ∧
    averageBuffer whiteStrip = some (0, 0, 0) ∧
    averageBuffer whiteStrip ≠ some (255, 255, 255) := by
  have h : averageBuffer whiteStrip = some (0, 0, 0) := by
    rw [averageBuffer_uniform whiteStrip 255 255 255 whiteStrip_uniform (by decide) (by decide)]
    decide
  refine ⟨whiteStrip_uniform, by decide, h, ?_⟩
  rw [h]
  decide

/-- C1 (amended): for a buffer of width `N`, height `M` and stride `S ≥ N`
whose pixels all have the bytes `(R, G, B)`, with `N * M ≥ 1`, with `R * N * M`,
`G * N * M` and `B * N * M` below `2^32`, and with `4 * S * M ≤ 2^32` (the pixel
area lies below byte offset `2^32`), the averaging step returns exactly
`(R, G, B)`. -/
theorem C1_uniform_average (buf : GraphicBuffer) (R G B : Nat)
    (hu : uniformPixels buf R G B) (hs : buf.width ≤ buf.stride)
    (hpos : 1 ≤ buf.width * buf.height)
    (hR : R * (buf.width * buf.height) < 4294967296)
    (hG : G * (buf.width * buf.height) < 4294967296)
    (hB : B * (buf.width * buf.height) < 4294967296)
    (hidx : 4 * (buf.stride * buf.height) ≤ 4294967296) :
    averageBuffer buf = some (R, G, B) := by
  have hle : buf.width * buf.height ≤ buf.stride * buf.height :=
    Nat.mul_le_mul_right _ hs
  have hmax : u32 (buf.width * buf.height) = buf.width * buf.height :=
    u32_of_lt (by omega)
  have hne : buf.width * buf.height ≠ 0 := by omega
  rw [averageBuffer_uniform buf R G B hu hs hidx, hmax, if_neg hne, u32_of_lt hR, u32_of_lt hG,
    u32_of_lt hB, Nat.mul_div_cancel _ hpos, Nat.mul_div_cancel _ hpos,
    Nat.mul_div_cancel _ hpos]

theorem sampleBuffer_uniform : uniformPixels sampleBuffer 10 20 30 := by
  intro y _ x _
  have h0 : ((y * 2 + x) * 4) % 4 = 0 := by omega
  have h1 : ((y * 2 + x) * 4 + 1) % 4 = 1 := by omega
  have h2 : ((y * 2 + x) * 4 + 2) % 4 = 2 := by omega
  simp [sampleBuffer, GraphicBuffer.byteAt, h0, h1, h2]

/-- C1 at the 2 x 2 buffer of pixels (10, 20, 30): the averaging step returns
(10, 20, 30). -/
theorem C1_uniform_average_witness :
    uniformPixels sampleBuffer 10 20 30 ∧ averageBuffer sampleBuffer = some (10, 20, 30) :=
  ⟨sampleBuffer_uniform,
    C1_uniform_average sampleBuffer 10 20 30 sampleBuffer_uniform (by decide) (by decide)
      (by decide) (by decide) (by decide) (by decide)⟩

/-- C9 as stated fails: for width 1, height 2 and a stride of `2^30` pixels the
bounds of the claim hold, the exact red sum is 255 (quotient 127), but
`stride * 4` is 0 in `uint32_t`, both iterations read byte offset 0, and the
averaging step returns red 0. -/
theorem C9_counterexample :
    farRowBuffer.width ≤ farRowBuffer.stride ∧
    1 ≤ farRowBuffer.width * farRowBuffer.height ∧
    255 * (farRowBuffer.width * farRowBuffer.height) < 4294967296 ∧
    exactChannelSum farRowBuffer Channel.red / (farRowBuffer.width * farRowBuffer.height) = 127 ∧
    pixelIndex farRowBuffer.stride 1 0 0 = 0 ∧
    averageBuffer farRowBuffer = some (0, 0, 0) := by
  decide

/-- C9 (amended): when a capture succeeds with a returned buffer of width `w`,
height `h` and stride `s ≥ w` such that `w * h ≥ 1`, `255 * w * h < 2^32` and
`4 * s * h ≤ 2^32` (the pixel area lies below byte offset `2^32`),
`takeScreenshot` returns for each channel the truncated quotient of the exact
sum of that channel's bytes over the `w x h` pixels by `w * h`, taken from the
returned buffer's own dimensions, and the accumulators hold the exact sums. -/
theorem C9_average_is_exact_quotient (rs : Rects) (outBuffer : Option GraphicBuffer)
    (env : CaptureEnv) (buf : GraphicBuffer)
    (hok : captureSucceeded rs env = true)
    (hbuf : (env.captureDisplay (captureArgsFor rs env.orientation)).buffer = buf)
    (hs : buf.width ≤ buf.stride) (hpos : 1 ≤ buf.width * buf.height)
    (hacc : 255 * (buf.width * buf.height) < 4294967296)
    (hidx : 4 * (buf.stride * buf.height) ≤ 4294967296) :
    (takeScreenshot rs outBuffer env).2 =
      some ⟨exactChannelSum buf Channel.red / (buf.width * buf.height),
        exactChannelSum buf Channel.green / (buf.width * buf.height),
        exactChannelSum buf Channel.blue / (buf.width * buf.height), env.bootTime⟩ ∧
    (∀ ch : Channel, (sumPixels buf).get ch = exactChannelSum buf ch) := by
  have hmax : u32 (buf.width * buf.height) = buf.width * buf.height :=
    u32_of_lt (by omega)
  have hne : buf.width * buf.height ≠ 0 := by omega
  have hsum : ∀ ch : Channel, u32 (exactChannelSum buf ch) = exactChannelSum buf ch := by
    intro ch
    have := exactChannelSum_le buf ch
    exact u32_of_lt (by omega)
  constructor
  · have hb : bufferAfterCapture rs outBuffer env = buf := by
      unfold bufferAfterCapture
      simp only [hok, if_true]
      exact hbuf
    unfold takeScreenshot
    simp only [hb]
    rw [averageBuffer_eq buf hs hidx, hmax, if_neg hne, hsum, hsum, hsum]
    rfl
  · intro ch
    rw [sumPixels_get_exact buf ch hs hidx, hsum]

/-- C9 at a request for the 80 x 80 rectangle of anchor (500, 800) answered
with the 2 x 2 buffer of pixels (10, 20, 30): the result is (10, 20, 30), the
quotients of the sums 40, 80, 120 by the buffer's own 4 pixels. -/
theorem C9_average_is_exact_quotient_witness :
    captureSucceeded (computeRects 500 800) (okEnv 1000) = true ∧
    (captureArgsFor (computeRects 500 800) (okEnv 1000).orientation).width = 80 ∧
    exactChannelSum sampleBuffer Channel.red = 40 ∧
    (takeScreenshot (computeRects 500 800) none (okEnv 1000)).2 = some ⟨10, 20, 30, 1000⟩ :=
  ⟨by decide, by decide, by decide,
    (C9_average_is_exact_quotient (computeRects 500 800) none (okEnv 1000) sampleBuffer
      (by decide) rfl (by decide) (by decide) (by decide) (by decide)).1⟩

/-! ## The stale-buffer fallback and the response: theorems -/

/-- A successful capture leaves the returned buffer in `outBuffer`. -/
theorem takeScreenshot_state_of_succeeded (rs : Rects) (st : Option GraphicBuffer)
    (env : CaptureEnv) (h : captureSucceeded rs env = true) :
    (takeScreenshot rs st env).1 =
      some (env.captureDisplay (captureArgsFor rs env.orientation)).buffer := by
  simp [takeScreenshot, bufferAfterCapture, h]

/-- A failed capture leaves a held buffer in `outBuffer`. -/
theorem takeScreenshot_state_of_failed (rs : Rects) (b : GraphicBuffer)
    (env : CaptureEnv) (h : captureSucceeded rs env = false) :
    (takeScreenshot rs (some b) env).1 = some b := by
  simp [takeScreenshot, bufferAfterCapture, h]

/-- A run of failed captures leaves a held buffer in `outBuffer`. -/
theorem serve_of_failed (rs : Rects) (b : GraphicBuffer) (envs : List CaptureEnv)
    (h : ∀ e ∈ envs, captureSucceeded rs e = false) : serve rs (some b) envs = some b := by
  induction envs with
  | nil => rfl
  | cons e t ih =>
    unfold serve
    rw [takeScreenshot_state_of_failed rs b e (h e (List.mem_cons_self e t))]
    exact ih (fun e2 h2 => h e2 (List.mem_cons_of_mem e h2))

/-- The result of a request in terms of the buffer averaged. -/
theorem takeScreenshot_result (rs : Rects) (st : Option GraphicBuffer) (env : CaptureEnv) :
    (takeScreenshot rs st env).2 =
      (averageBuffer (bufferAfterCapture rs st env)).map
        fun c => ⟨c.1, c.2.1, c.2.2, env.bootTime⟩ := rfl

/-- C2 as stated fails: a request at boot time 1000 captures the 2 x 2 buffer
and is answered (10, 20, 30, 1000); the next request, at boot time 2000, fails
its capture and is answered (10, 20, 30, 2000), which is not the earlier
result. -/
theorem C2_counterexample :
    captureSucceeded (computeRects 500 800) (okEnv 1000) = true ∧
    captureSucceeded (computeRects 500 800) (failedEnv 2000) = false ∧
    ((runCommand 8 (computeRects 500 800) none (okEnv 1000)).2).map Response.data =
      some ⟨10, 20, 30, 1000⟩ ∧
    ((runCommand 8 (computeRects 500 800)
        (runCommand 8 (computeRects 500 800) none (okEnv 1000)).1 (failedEnv 2000)).2).map
        Response.data = some ⟨10, 20, 30, 2000⟩ ∧
    ((runCommand 8 (computeRects 500 800)
        (runCommand 8 (computeRects 500 800) none (okEnv 1000)).1 (failedEnv 2000)).2).map
        Response.data ≠
      ((runCommand 8 (computeRects 500 800) none (okEnv 1000)).2).map Response.data := by
  decide

/-- C2 (amended): when a request's capture fails and an earlier request `ok`
captured successfully, with only failed captures in between, the red, green
and blue fields written to the client equal those written for `ok`, and the
timestamp written is the boot time read during the failing request. -/
theorem C2_failed_capture_repeats_channels (alignInt64 : Nat) (rs : Rects)
    (st : Option GraphicBuffer) (ok : CaptureEnv) (stale : List CaptureEnv) (last : CaptureEnv)
    (hok : captureSucceeded rs ok = true)
    (hstale : ∀ e ∈ stale, captureSucceeded rs e = false)
    (hlast : captureSucceeded rs last = false) :
    ((runCommand alignInt64 rs (serve rs (runCommand alignInt64 rs st ok).1 stale) last).2).map
        (fun r => r.data.channels) =
      ((runCommand alignInt64 rs st ok).2).map (fun r => r.data.channels) ∧
    ((runCommand alignInt64 rs (serve rs (runCommand alignInt64 rs st ok).1 stale) last).2).map
        (fun r => r.data.timestamp) =
      ((runCommand alignInt64 rs st ok).2).map (fun _ => last.bootTime) := by
  have h1 : (runCommand alignInt64 rs st ok).1 =
      some (ok.captureDisplay (captureArgsFor rs ok.orientation)).buffer :=
    takeScreenshot_state_of_succeeded rs st ok hok
  have hb1 : bufferAfterCapture rs st ok =
      (ok.captureDisplay (captureArgsFor rs ok.orientation)).buffer := by
    simp [bufferAfterCapture, hok]
  have hb2 : bufferAfterCapture rs
      (some (ok.captureDisplay (captureArgsFor rs ok.orientation)).buffer) last =
      (ok.captureDisplay (captureArgsFor rs ok.orientation)).buffer := by
    simp [bufferAfterCapture, hlast]
  rw [h1, serve_of_failed rs _ stale hstale]
  simp only [runCommand, takeScreenshot_result, hb1, hb2, Option.map_map]
  constructor <;> rfl

/-- C2 at the two requests above with one more failed request in between: the
channels (10, 20, 30) are repeated and the timestamp is 3000. -/
theorem C2_failed_capture_repeats_channels_witness :
    ((runCommand 8 (computeRects 500 800)
        (serve (computeRects 500 800)
          (runCommand 8 (computeRects 500 800) none (okEnv 1000)).1 [failedEnv 2000])
        (failedEnv 3000)).2).map (fun r => r.data.channels) =
      ((runCommand 8 (computeRects 500 800) none (okEnv 1000)).2).map
        (fun r => r.data.channels) ∧
    ((runCommand 8 (computeRects 500 800) none (okEnv 1000)).2).map
        (fun r => r.data.channels) = some (10, 20, 30) :=
  ⟨(C2_failed_capture_repeats_channels 8 (computeRects 500 800) none (okEnv 1000)
      [failedEnv 2000] (failedEnv 3000) (by decide)
      (by intro e he; rw [List.mem_singleton.mp he]; decide) (by decide)).1,
    by decide⟩

/-- C4 as stated fails: with `int64_t` aligned to 8 bytes the three `uint32_t`
members end at offset 12, the timestamp starts at offset 16, and the response
is 24 bytes, not 20, after a successful capture and after a failed one alike. -/
theorem C4_counterexample :
    sizeofStruct (screenshot_t_members 8) = 24 ∧
    memberOffsets (screenshot_t_members 8) 0 = [0, 4, 8, 16] ∧
    ((runCommand 8 (computeRects 500 800) none (okEnv 1000)).2).map Response.size = some 24 ∧
    ((runCommand 8 (computeRects 500 800) (some sampleBuffer) (failedEnv 2000)).2).map
        Response.size = some 24 ∧
    ((runCommand 8 (computeRects 500 800) none (okEnv 1000)).2).map Response.size ≠ some 20 := by
  decide

/-- C4 (amended): the response is `sizeof(screenshot_t)` bytes holding red at
offset 0, green at 4, blue at 8 and then the timestamp: 24 bytes with the
timestamp at offset 16 where `int64_t` is 8-byte aligned, 20 bytes with the
timestamp at offset 12 where it is 4-byte aligned. The shape is the same for
every request, whether its capture succeeded or failed. -/
theorem C4_response_shape (rs : Rects) (st : Option GraphicBuffer) (env : CaptureEnv) :
    (runCommand 8 rs st env).2 =
      (takeScreenshot rs st env).2.map (fun s => (⟨s, 24, [0, 4, 8, 16]⟩ : Response)) ∧
    (runCommand 4 rs st env).2 =
      (takeScreenshot rs st env).2.map (fun s => (⟨s, 20, [0, 4, 8, 12]⟩ : Response)) :=
  ⟨rfl, rfl⟩

end AlsCorrection
